import Mathlib

/-!
Shallow embedding of the Layout-Color application (two source variants:
src/App.tsx and src/unnamed/part_000). Both variants are single-page React
controllers around two generative-model calls; the reproducible core is the
image-intake normalizer (white-flattening plus aspect-ratio bucketing) and
the generation session controller (audit and synthesis requests, response
part selection, failure handling). Network completions are modelled as
explicit outcome parameters of type Except; each handler is a pure function
from the pre-state and the outcome to the post-state together with the
request it issued and the alert and console messages it produced.
-/

namespace LayoutColor

/-- Session status, source type Status = idle | analyzing | rendering. -/
inductive Status where
  | idle
  | analyzing
  | rendering
deriving DecidableEq

/-- Resolution tier, source type ImageSize = 1K | 2K | 4K. -/
inductive ImageSize where
  | k1
  | k2
  | k4
deriving DecidableEq

/-- Aspect-ratio classifier, App.tsx lines 45-52 (the part_000 variant inlines
the identical threshold chain at lines 63-69 of its upload handler). The
source computes ratio = width / height and tests the literal thresholds with
strict comparisons, first match wins. -/
def calculateAspectRatio (width height : ℕ) : String :=
  let ratio : ℚ := (width : ℚ) / (height : ℚ)
  if ratio > 1.5 then "16:9"
  else if ratio > 1.2 then "4:3"
  else if ratio < 0.6 then "9:16"
  else if ratio < 0.8 then "3:4"
  else "1:1"

/-- Whether the first character list is an initial segment of the second. -/
def listLeadsWith : List Char → List Char → Bool
  | [], _ => true
  | _ :: _, [] => false
  | a :: as, b :: bs => a == b && listLeadsWith as bs

/-- Whether sub occurs as a contiguous run inside l. -/
def listHasRun (sub : List Char) : List Char → Bool
  | [] => listLeadsWith sub []
  | c :: t => listLeadsWith sub (c :: t) || listHasRun sub t

/-- Model of the JavaScript String.includes test used in the catch blocks. -/
def strIncludes (s sub : String) : Bool :=
  listHasRun sub.toList s.toList

/-- Model of dataUrl.split(",")[1]: the payload after the data-URI header. -/
def payloadOf (s : String) : String :=
  (s.splitOn ",").getD 1 ""

/-! ### Pixel-level model of the canvas normalization (App.tsx processLineart) -/

/-- A pixel with rational channels; a is the alpha coverage in [0,1]. -/
@[ext]
structure RGBA where
  r : ℚ
  g : ℚ
  b : ℚ
  a : ℚ
deriving DecidableEq

/-- Raster image: source dimensions plus a pixel function. -/
structure Img where
  width : ℕ
  height : ℕ
  px : ℕ → ℕ → RGBA

/-- The opaque white fill colour, source fillStyle = #FFFFFF. -/
def white : RGBA := ⟨1, 1, 1, 1⟩

/-- Canvas source-over compositing of a source pixel onto a destination pixel
whose alpha is 1 (the destination is always the freshly white-filled buffer,
which is fully opaque, so the general divide-by-out-alpha normalization
reduces to this affine blend). -/
def compositeOver (src dst : RGBA) : RGBA :=
  { r := src.r * src.a + dst.r * (1 - src.a)
    g := src.g * src.a + dst.g * (1 - src.a)
    b := src.b * src.a + dst.b * (1 - src.a)
    a := src.a + dst.a * (1 - src.a) }

/-- Model of createElement canvas sized to the source image followed by
fillRect with white: a buffer of exactly the source dimensions, every pixel
solid white. App.tsx lines 59-64. -/
def makeWhiteCanvas (w h : ℕ) : Img :=
  { width := w, height := h, px := fun _ _ => white }

/-- Model of ctx.drawImage(img, 0, 0) onto a canvas of identical dimensions:
every pixel of the buffer is the source pixel composited over the buffer
pixel. App.tsx line 65. -/
def drawImageOnto (canvas img : Img) : Img :=
  { width := canvas.width, height := canvas.height
    px := fun x y => compositeOver (img.px x y) (canvas.px x y) }

/-- A losslessly encoded raster (canvas.toDataURL with image/png semantics):
PNG encoding reproduces every pixel exactly, so the model keeps the pixel
function and dimensions. -/
structure Encoded where
  width : ℕ
  height : ℕ
  px : ℕ → ℕ → RGBA

/-- Model of canvas.toDataURL(image/png): lossless, pixel-exact. -/
def toDataURL (c : Img) : Encoded :=
  { width := c.width, height := c.height, px := c.px }

/-- App.tsx processLineart, lines 54-71: build a canvas sized to the decoded
image, fill it white, draw the image on top, re-encode as PNG, and classify
the aspect ratio from the source dimensions. -/
def processLineart (img : Img) : Encoded × String :=
  let canvas := makeWhiteCanvas img.width img.height
  let drawn := drawImageOnto canvas img
  (toDataURL drawn, calculateAspectRatio img.width img.height)

/-! ### Request and response shapes of the external model service -/

/-- A style-audit request: model name, inline image payload, instruction. -/
structure AuditRequest where
  model : String
  image : String
  instruction : String
deriving DecidableEq

/-- One content part of a synthesis response: optional inline image payload
and optional text. -/
structure Part where
  inlineData : Option String
  text : Option String
deriving DecidableEq

/-- One response candidate wrapping its content parts. -/
structure Candidate where
  parts : List Part
deriving DecidableEq

/-- A synthesis response: a list of candidates. -/
structure SynthResponse where
  candidates : List Candidate
deriving DecidableEq

/-- A synthesis request: model name, the line-art payload (type img differs
between the two variants), the composed prompt, and the image config. -/
structure SynthRequest (img : Type) where
  model : String
  image : img
  prompt : String
  aspectRatio : String
  imageSize : ImageSize

/-- Result of running one handler: the post-state, the request it issued (if
any), the alert it raised (if any) and the console message it logged. -/
structure StepResult (σ ρ : Type) where
  state : σ
  request : Option ρ
  alertMsg : Option String
  consoleMsg : Option String

/-- A handler outcome that leaves the state untouched and performs nothing. -/
def StepResult.noop {σ ρ : Type} (s : σ) : StepResult σ ρ :=
  { state := s, request := none, alertMsg := none, consoleMsg := none }

/-- First response part carrying an inline image payload, via the chain
response.candidates[0].content.parts.find(p with inlineData) shared by both
variants (App.tsx line 170, part_000 line 148). -/
def firstInlinePart (resp : SynthResponse) : Option Part :=
  resp.candidates.head?.bind fun c => c.parts.find? fun p => p.inlineData.isSome

/-! ### Variant 1: src/App.tsx -/

namespace AppTsx

/-- Session state of the App.tsx variant, source lines 9-16. The line-art
slot holds the normalized (flattened, re-encoded) image produced by
processLineart; the other images stay opaque data-URI strings. -/
structure AppState where
  refImage : Option String
  lineartImage : Option LayoutColor.Encoded
  aspectRatio : String
  resultImage : Option String
  status : Status
  dnaStream : String
  fidelity : ℕ
  selectedSize : ImageSize

/-- Static audit instruction text, App.tsx lines 101-106. -/
def auditInstruction : String :=
"[DETERMINISTIC DNA AUDIT]
            作为高级建筑色彩审计师，请提取此图的绝对色彩DNA：
            1. 核心调性：提取主要背景、建筑体、绿化、家具的确切色彩值（HEX/RGB）。
            2. 渐变逻辑：分析大面积区域的色彩退晕步长、退晕方向、明度梯度（High-End Gradient）。
            3. 物理阴影：分析阴影边缘的硬度与色偏规律。
            请以此作为后续填色的唯一参考基准，严禁任何随机发散。"

/-- App.tsx auditNeuralDNA, lines 92-119: issues the audit request for the
given image data; on success stores response.text (empty when the model
returns nothing) as the descriptor, on failure logs the error (and for a
not-found message opens the external key dialog, which touches no session
state); either way the finally block returns the status to idle. The model
response is the outcome argument: ok carries the optional text field. -/
def auditNeuralDNA (s : AppState) (imageData : String)
    (outcome : Except String (Option String)) : StepResult AppState AuditRequest :=
  let req : AuditRequest :=
    { model := "gemini-3-flash-preview"
      image := payloadOf imageData
      instruction := auditInstruction }
  match outcome with
  | .ok t =>
      { state := { s with dnaStream := t.getD "", status := Status.idle }
        request := some req, alertMsg := none, consoleMsg := none }
  | .error e =>
      { state := { s with status := Status.idle }
        request := some req, alertMsg := none
        consoleMsg := some ("Audit Error: " ++ e) }

/-- App.tsx handleFileUpload with type ref, lines 79-81: store the raw data
URI as the reference image, then immediately run the audit on it. -/
def handleFileUploadRef (s : AppState) (data : String)
    (outcome : Except String (Option String)) : StepResult AppState AuditRequest :=
  auditNeuralDNA { s with refImage := some data } data outcome

/-- App.tsx handleFileUpload with type lineart, lines 82-87: run
processLineart on the decoded image, store the normalized image and its
ratio bucket, and clear any previous render result. The decoded argument is
the result of rasterizing the uploaded data URI; when decoding fails the
Image onload callback never fires (processLineart installs no onerror
handler), so nothing after the await runs and the state is unchanged. -/
def handleFileUploadLineart (s : AppState) (decoded : Option Img) : AppState :=
  match decoded with
  | none => s
  | some img =>
      let processed := processLineart img
      { s with lineartImage := some processed.1,
               aspectRatio := processed.2,
               resultImage := none }

/-- Composed synthesis instruction, App.tsx lines 126-151, interpolating the
stored descriptor and the aspect-ratio bucket (the fidelity value appears
nowhere in the template). -/
def synthPrompt (dnaStream aspectRatio : String) : String :=
"
        [DETERMINISTIC RENDERING ENGINE - STABILITY LOCK V28]

        ### ROLE: INDUSTRIAL CAD COLORIZER

        ### 1. 线稿第一性铁律 (ABSOLUTE FIDELITY - NO EXCEPTIONS)
        - 原始线稿是物理边界。禁止重绘、加粗、模糊或修改原始 CAD 线条。
        - 零幻觉准则：禁止在线稿未定义区域生成任何家具、纹理或结构。严禁“脑补”细节。
        - 填色一致性：相同功能区域（如所有阶梯、所有柜体）的色彩必须高度一致，剔除所有杂色。

        ### 2. 多维色彩稳定性锁 (DETERMINISTIC DNA LOCK)
        - 必须严格套用审计出的色彩DNA：[" ++ dnaStream ++ "]。
        - 强制高级渐变：大面积地面与建筑墙体禁止使用纯色。必须注入基于审计逻辑的线性、细腻渐变退晕。
        - 语义化映射：根据线稿识别建筑墙体、家具、绿植、湖水、洁具，并执行 1:1 风格迁移。

        ### 3. 三相投影刚性约束 (3% PROJECTION LIMIT)
        - 阴影必须完全基于线稿物件几何反推。投影偏差严控在 3% 以内。
        - 阴影质感需完全吻合参考风格的硬度与透明度。

        ### 4. 纯净化执行 (STRICT PURIFICATION)
        - 彻底剔除所有艺术笔触、水彩纹理、手绘痕迹。
        - 地面必须极致纯净，仅通过微弱的明度渐变来体现高级感。

        ### 5. 输出格式控制：
        - 宽高比必须严格对齐 " ++ aspectRatio ++ "。图像严禁任何拉伸、压缩或裁剪。
      "

/-- App.tsx executeSynthesis, lines 121-183: guard on a present line-art
image, issue the render request with the composed prompt and the image
config, then on success pick the first inline-image part of the first
candidate (all other parts are dropped) and store it as the result; a
response without such a part stores nothing. On failure the error is
logged, and a 429 or not-found message additionally alerts and opens the
key dialog. The finally block returns the status to idle on every path. -/
def executeSynthesis (s : AppState) (outcome : Except String SynthResponse) :
    StepResult AppState (SynthRequest LayoutColor.Encoded) :=
  match s.lineartImage with
  | none => StepResult.noop s
  | some lineart =>
      let req : SynthRequest LayoutColor.Encoded :=
        { model := "gemini-3-pro-image-preview"
          image := lineart
          prompt := synthPrompt s.dnaStream s.aspectRatio
          aspectRatio := s.aspectRatio
          imageSize := s.selectedSize }
      match outcome with
      | .error e =>
          { state := { s with status := Status.idle }
            request := some req
            alertMsg :=
              if strIncludes e "429" || strIncludes e "not found" then
                some "API 密钥验证失败或未配置计费，请通过“引擎管理”重新设置。"
              else none
            consoleMsg := some ("Synthesis Error: " ++ e) }
      | .ok resp =>
          match firstInlinePart resp with
          | some p =>
              match p.inlineData with
              | some d =>
                  { state :=
                      { s with status := Status.idle, resultImage := some ("data:image/png;base64," ++ d) }
                    request := some req, alertMsg := none, consoleMsg := none }
              | none =>
                  { state := { s with status := Status.idle }
                    request := some req, alertMsg := none, consoleMsg := none }
          | none =>
              { state := { s with status := Status.idle }
                request := some req, alertMsg := none, consoleMsg := none }

/-- The synthesize action as triggerable from the UI: the button (App.tsx
line 223) is disabled unless the status is idle and a line-art image is
present, and a click on a disabled control does nothing; otherwise the
click runs executeSynthesis. -/
def synthesizeAction (s : AppState) (outcome : Except String SynthResponse) :
    StepResult AppState (SynthRequest LayoutColor.Encoded) :=
  if s.status ≠ Status.idle ∨ s.lineartImage.isNone then StepResult.noop s
  else executeSynthesis s outcome

/-- The explicit discard action, App.tsx line 269: setResultImage(null). -/
def discardResult (s : AppState) : AppState :=
  { s with resultImage := none }

end AppTsx

/-! ### Variant 2: src/unnamed/part_000 (the strict-fidelity variant) -/

namespace Part000

/-- Session state of the part_000 variant, source lines 8-20. This variant
stores the raw uploaded data URI as the line-art (no canvas processing) and
gates synthesis on a non-empty style descriptor. -/
structure P0State where
  refImage : Option String
  lineartImage : Option String
  resultImage : Option String
  status : Status
  styleDesc : String
  selectedSize : ImageSize
  styleStrength : ℕ
  aspectRatio : String
  showKeyModal : Bool
  hasKey : Bool

/-- The part_000 handleFileUpload with type ref, lines 55-57: store the new
reference image and clear the style descriptor at once. -/
def handleFileUploadRef (s : P0State) (data : String) : P0State :=
  { s with refImage := some data, styleDesc := "" }

/-- The part_000 handleFileUpload with type lineart, lines 58-70: store the
raw data URI as the line-art and clear the render result immediately; the
aspect-ratio classification only happens later in the Image onload callback,
so a failed decode (decoded = none) leaves the previous bucket in place
while the undecodable bytes are already stored. -/
def handleFileUploadLineart (s : P0State) (data : String)
    (decoded : Option (ℕ × ℕ)) : P0State :=
  let s1 := { s with lineartImage := some data, resultImage := none }
  match decoded with
  | none => s1
  | some wh => { s1 with aspectRatio := calculateAspectRatio wh.1 wh.2 }

/-- The part_000 analyzeStyle, lines 76-112: guarded on a present reference
image and a non-empty API key; on success stores response.text as the
descriptor, on an invalid-key failure drops the key flag and reopens the
key modal, on any other failure alerts generically; the finally block
returns the status to idle. -/
def analyzeStyle (s : P0State) (apiKey : String)
    (outcome : Except String (Option String)) : StepResult P0State AuditRequest :=
  match s.refImage with
  | none => StepResult.noop s
  | some refData =>
      if apiKey = "" then
        { state := { s with showKeyModal := true }
          request := none, alertMsg := none, consoleMsg := none }
      else
        let req : AuditRequest :=
          { model := "gemini-3-flash-preview"
            image := payloadOf refData
            instruction :=
              "Detailed architectural color analysis: Extract palette, materials, and lighting mood." }
        match outcome with
        | .ok t =>
            { state := { s with styleDesc := t.getD "", status := Status.idle }
              request := some req, alertMsg := none, consoleMsg := none }
        | .error e =>
            if strIncludes e "API_KEY_INVALID" || strIncludes e "403" then
              { state :=
                  { s with hasKey := false, showKeyModal := true, status := Status.idle }
                request := some req
                alertMsg := some "API Key 效验失败，请检查是否输入正确且关联了付费项目。"
                consoleMsg := some e }
            else
              { state := { s with status := Status.idle }
                request := some req
                alertMsg := some "解析受阻，请检查网络连接或 API 额度。"
                consoleMsg := some e }

/-- Composed synthesis instruction of part_000, lines 125-130, interpolating
the stored descriptor and the decimal strength percentage. -/
def synthPrompt (styleDesc : String) (styleStrength : ℕ) : String :=
"
        TASK: ARCHITECTURAL PLAN COLORIZATION
        STYLE REFERENCE: " ++ styleDesc ++ "
        STRENGTH: " ++ Nat.repr styleStrength ++ "%
        CONSTRAINT: TOPOLOGY LOCK. Preserving every line of the CAD input with absolute precision.
      "

/-- Message of the TypeError thrown when response.candidates[0] is read on a
response with no candidates (part_000 line 148 indexes without a check; the
exception lands in the catch block). -/
def typeErrorMsg : String := "TypeError: Cannot read properties of undefined"

/-- The part_000 renderLayout, lines 114-158: guarded on a present line-art
image AND a non-empty style descriptor, then on a non-empty API key; issues
the render request with the composed prompt, on success picks the first
inline-image part of candidates[0] (a response with no candidates throws and
is caught like a request failure), on failure alerts with the error message
(or a generic fallback); the finally block returns the status to idle. -/
def renderLayout (s : P0State) (apiKey : String)
    (outcome : Except String SynthResponse) : StepResult P0State (SynthRequest String) :=
  match s.lineartImage with
  | none => StepResult.noop s
  | some lineart =>
      if s.styleDesc = "" then StepResult.noop s
      else if apiKey = "" then
        { state := { s with showKeyModal := true }
          request := none, alertMsg := none, consoleMsg := none }
      else
        let req : SynthRequest String :=
          { model := "gemini-3-pro-image-preview"
            image := payloadOf lineart
            prompt := synthPrompt s.styleDesc s.styleStrength
            aspectRatio := s.aspectRatio
            imageSize := s.selectedSize }
        match outcome with
        | .error e =>
            { state := { s with status := Status.idle }
              request := some req
              alertMsg := some ("生成失败: " ++ (if e = "" then "未知错误" else e))
              consoleMsg := some e }
        | .ok resp =>
            match resp.candidates.head? with
            | none =>
                { state := { s with status := Status.idle }
                  request := some req
                  alertMsg := some ("生成失败: " ++ typeErrorMsg)
                  consoleMsg := some typeErrorMsg }
            | some c =>
                match c.parts.find? (fun p => p.inlineData.isSome) with
                | some p =>
                    match p.inlineData with
                    | some d =>
                        { state :=
                            { s with status := Status.idle, resultImage := some ("data:image/png;base64," ++ d) }
                          request := some req, alertMsg := none, consoleMsg := none }
                    | none =>
                        { state := { s with status := Status.idle }
                          request := some req, alertMsg := none, consoleMsg := none }
                | none =>
                    { state := { s with status := Status.idle }
                      request := some req, alertMsg := none, consoleMsg := none }

/-- The synthesize action as triggerable from the part_000 UI: the button
(line 324) is disabled unless the status is idle, a line-art image is
present and the style descriptor is non-empty; a click on a disabled
control does nothing, otherwise the click runs renderLayout. -/
def renderLayoutAction (s : P0State) (apiKey : String)
    (outcome : Except String SynthResponse) : StepResult P0State (SynthRequest String) :=
  if s.status ≠ Status.idle ∨ s.lineartImage.isNone ∨ s.styleDesc = "" then
    StepResult.noop s
  else renderLayout s apiKey outcome

end Part000

/-- A concrete 1 x 1 white encoded image used in concrete instantiations. -/
def sampleEncoded : Encoded := ⟨1, 1, fun _ _ => white⟩

/-! ### Claim theorems -/

/-- Helper: find? over a run of non-matching elements followed by a
matching element returns that element. -/
theorem find?_first_run {α : Type} (pred : α → Bool) (pre : List α) (p : α)
    (post : List α) (hpre : ∀ q ∈ pre, pred q = false) (hp : pred p = true) :
    (pre ++ p :: post).find? pred = some p := by
  induction pre with
  | nil => simpa using List.find?_cons_of_pos post hp
  | cons a as ih =>
      have ha : pred a = false := hpre a (by simp)
      have h1 : ((a :: as) ++ p :: post).find? pred = (as ++ p :: post).find? pred := by
        simpa using List.find?_cons_of_neg (as ++ p :: post) (by simp [ha])
      rw [h1]
      exact ih fun q hq => hpre q (by simp [hq])

/-- Helper: decimal representations of naturals up to 100 (the strength
range) are pairwise distinct. -/
theorem reprInjBelow : ∀ a < 101, ∀ b < 101, Nat.repr a = Nat.repr b → a = b := by
  set_option maxRecDepth 10000 in decide

/-- Helper: the classifier unfolded to its threshold chain. -/
theorem calculateAspectRatio_eq (w h : ℕ) :
    calculateAspectRatio w h =
      (if 1.5 < ((w : ℚ) / (h : ℚ)) then "16:9"
       else if 1.2 < ((w : ℚ) / (h : ℚ)) then "4:3"
       else if ((w : ℚ) / (h : ℚ)) < 0.6 then "9:16"
       else if ((w : ℚ) / (h : ℚ)) < 0.8 then "3:4"
       else "1:1") := rfl

/-- C1: for every image with positive width and height, the classifier
returns exactly one bucket of the fixed five, chosen by the first matching
rule in the order 16:9, 4:3, 9:16, 3:4, 1:1 with strict threshold
comparisons, so each bucket is characterized exactly by the stated ratio
range and boundary ratios (1.5, 1.2, 0.6, 0.8) fall through to a later
rule; the result depends on (width, height) alone. -/
theorem aspect_ratio_classification (w h : ℕ) (hw : 0 < w) (hh : 0 < h) :
    calculateAspectRatio w h ∈ ["1:1", "4:3", "3:4", "16:9", "9:16"] ∧
    (calculateAspectRatio w h = "16:9" ↔ 1.5 < ((w : ℚ) / (h : ℚ))) ∧
    (calculateAspectRatio w h = "4:3" ↔
      (1.2 < ((w : ℚ) / (h : ℚ)) ∧ ((w : ℚ) / (h : ℚ)) ≤ 1.5)) ∧
    (calculateAspectRatio w h = "9:16" ↔ ((w : ℚ) / (h : ℚ)) < 0.6) ∧
    (calculateAspectRatio w h = "3:4" ↔
      (0.6 ≤ ((w : ℚ) / (h : ℚ)) ∧ ((w : ℚ) / (h : ℚ)) < 0.8)) ∧
    (calculateAspectRatio w h = "1:1" ↔
      (0.8 ≤ ((w : ℚ) / (h : ℚ)) ∧ ((w : ℚ) / (h : ℚ)) ≤ 1.2)) := by
  rw [calculateAspectRatio_eq]
  set r : ℚ := (w : ℚ) / (h : ℚ) with hr
  split_ifs with h1 h2 h3 h4
  · exact ⟨by decide, iff_of_true rfl h1,
      iff_of_false (by decide) (fun hx => not_lt.mpr hx.2 h1),
      iff_of_false (by decide) (by intro hx; linarith),
      iff_of_false (by decide) (by rintro ⟨-, hx⟩; linarith),
      iff_of_false (by decide) (by rintro ⟨-, hx⟩; linarith)⟩
  · exact ⟨by decide, iff_of_false (by decide) h1,
      iff_of_true rfl ⟨h2, not_lt.mp h1⟩,
      iff_of_false (by decide) (by intro hx; linarith),
      iff_of_false (by decide) (by rintro ⟨-, hx⟩; linarith),
      iff_of_false (by decide) (by rintro ⟨-, hx⟩; linarith)⟩
  · exact ⟨by decide, iff_of_false (by decide) h1,
      iff_of_false (by decide) (by rintro ⟨hx, -⟩; linarith),
      iff_of_true rfl h3,
      iff_of_false (by decide) (by rintro ⟨hx, -⟩; linarith),
      iff_of_false (by decide) (by rintro ⟨hx, -⟩; linarith)⟩
  · exact ⟨by decide, iff_of_false (by decide) h1,
      iff_of_false (by decide) (by rintro ⟨hx, -⟩; linarith [not_lt.mp h2]),
      iff_of_false (by decide) h3,
      iff_of_true rfl ⟨not_lt.mp h3, h4⟩,
      iff_of_false (by decide) (by rintro ⟨hx, -⟩; linarith)⟩
  · exact ⟨by decide, iff_of_false (by decide) h1,
      iff_of_false (by decide) (by rintro ⟨hx, -⟩; exact h2 hx),
      iff_of_false (by decide) h3,
      iff_of_false (by decide) (by rintro ⟨-, hx⟩; exact h4 hx),
      iff_of_true rfl ⟨not_lt.mp h4, not_lt.mp h2⟩⟩

/-- C7: the normalize operation rasterizes into a buffer sized exactly to
the source dimensions, fills it white, composites the source on top with
source-over blending, and re-encodes losslessly: every pixel of the output
is the source pixel composited over white, every fully transparent source
pixel becomes pure white, every output pixel is fully opaque, and every
fully opaque source pixel is reproduced exactly. -/
theorem normalize_flattens (img : Img) :
    (processLineart img).1.width = img.width ∧
    (processLineart img).1.height = img.height ∧
    (processLineart img).2 = calculateAspectRatio img.width img.height ∧
    (∀ x y, (processLineart img).1.px x y = compositeOver (img.px x y) white) ∧
    (∀ x y, ((processLineart img).1.px x y).a = 1) ∧
    (∀ x y, (img.px x y).a = 0 → (processLineart img).1.px x y = white) ∧
    (∀ x y, (img.px x y).a = 1 → (processLineart img).1.px x y = img.px x y) := by
  refine ⟨rfl, rfl, rfl, fun x y => rfl, fun x y => ?_, fun x y h => ?_, fun x y h => ?_⟩
  · show (compositeOver (img.px x y) white).a = 1
    simp only [compositeOver, white]
    ring
  · show compositeOver (img.px x y) white = white
    ext <;> simp only [compositeOver, white, h] <;> norm_num
  · show compositeOver (img.px x y) white = img.px x y
    ext <;> simp only [compositeOver, white, h] <;> ring

/-- Witness for C7: a concrete 2 x 2 image whose pixel is transparent black
maps to opaque white, and a fully opaque pixel is reproduced exactly. -/
theorem normalize_flattens_witness :
    (processLineart ⟨2, 2, fun _ _ => ⟨0, 0, 0, 0⟩⟩).1.px 0 0 = white ∧
    (processLineart ⟨2, 2, fun _ _ => ⟨1/2, 1/4, 0, 1⟩⟩).1.px 1 1 = ⟨1/2, 1/4, 0, 1⟩ ∧
    ((processLineart ⟨2, 2, fun _ _ => ⟨0, 0, 0, 1/3⟩⟩).1.px 0 1).a = 1 :=
  ⟨(normalize_flattens ⟨2, 2, fun _ _ => ⟨0, 0, 0, 0⟩⟩).2.2.2.2.2.1 0 0 rfl,
   (normalize_flattens ⟨2, 2, fun _ _ => ⟨1/2, 1/4, 0, 1⟩⟩).2.2.2.2.2.2 1 1 rfl,
   (normalize_flattens ⟨2, 2, fun _ _ => ⟨0, 0, 0, 1/3⟩⟩).2.2.2.2.1 0 1⟩

/-- C9: uploading a new line-art image clears any existing render result; in
App.tsx the handler stores the processed image and clears the result, in
part_000 the handler clears the result unconditionally whatever the decode
outcome. -/
theorem lineart_upload_clears_result (s : AppTsx.AppState) (img : Img)
    (t : Part000.P0State) (data : String) (dec : Option (ℕ × ℕ)) :
    (AppTsx.handleFileUploadLineart s (some img)).resultImage = none ∧
    (Part000.handleFileUploadLineart t data dec).resultImage = none := by
  refine ⟨rfl, ?_⟩
  cases dec <;> rfl

/-- C3: triggering synthesize while the session is not idle, or with no
line-art present (or, in the strict-fidelity part_000 variant, with an
empty style descriptor) is a no-op: the state is unchanged (hence stays
idle when it was idle), no request is issued and no alert is raised; with
no line-art present even the raw handler, bypassing the disabled button, is
a no-op. -/
theorem synthesize_guard_noop (s : AppTsx.AppState) (o : Except String SynthResponse)
    (t : Part000.P0State) (key : String) (o' : Except String SynthResponse) :
    (s.status ≠ Status.idle ∨ s.lineartImage = none →
      AppTsx.synthesizeAction s o = StepResult.noop s) ∧
    (s.lineartImage = none → AppTsx.executeSynthesis s o = StepResult.noop s) ∧
    (t.status ≠ Status.idle ∨ t.lineartImage = none ∨ t.styleDesc = "" →
      Part000.renderLayoutAction t key o' = StepResult.noop t) ∧
    (t.lineartImage = none ∨ t.styleDesc = "" →
      Part000.renderLayout t key o' = StepResult.noop t) := by
  refine ⟨fun h => ?_, fun h => ?_, fun h => ?_, fun h => ?_⟩
  · have hc : s.status ≠ Status.idle ∨ s.lineartImage.isNone := by
      rcases h with h | h
      · exact Or.inl h
      · exact Or.inr (by simp [h])
    rw [AppTsx.synthesizeAction, if_pos hc]
  · simp [AppTsx.executeSynthesis, h]
  · have hc : t.status ≠ Status.idle ∨ t.lineartImage.isNone ∨ t.styleDesc = "" := by
      rcases h with h | h | h
      · exact Or.inl h
      · exact Or.inr (Or.inl (by simp [h]))
      · exact Or.inr (Or.inr h)
    rw [Part000.renderLayoutAction, if_pos hc]
  · rcases h with h | h
    · simp [Part000.renderLayout, h]
    · cases htl : t.lineartImage <;> simp [Part000.renderLayout, htl, h]

/-- Witness for C3: with a rendering status the action is a no-op, and with
no line-art the raw handler is a no-op from an idle state. -/
theorem synthesize_guard_noop_witness :
    AppTsx.synthesizeAction
      ⟨none, none, "1:1", none, Status.rendering, "", 100, ImageSize.k1⟩ (.error "e") =
      StepResult.noop
        ⟨none, none, "1:1", none, Status.rendering, "", 100, ImageSize.k1⟩ ∧
    AppTsx.executeSynthesis
      ⟨none, none, "1:1", none, Status.idle, "", 100, ImageSize.k1⟩ (.error "e") =
      StepResult.noop ⟨none, none, "1:1", none, Status.idle, "", 100, ImageSize.k1⟩ ∧
    Part000.renderLayoutAction
      ⟨none, some "d", none, Status.idle, "", ImageSize.k1, 80, "1:1", false, false⟩
      "key" (.error "e") =
      StepResult.noop
        ⟨none, some "d", none, Status.idle, "", ImageSize.k1, 80, "1:1", false, false⟩ :=
  ⟨(synthesize_guard_noop
      ⟨none, none, "1:1", none, Status.rendering, "", 100, ImageSize.k1⟩ (.error "e")
      ⟨none, some "d", none, Status.idle, "", ImageSize.k1, 80, "1:1", false, false⟩
      "key" (.error "e")).1 (Or.inl (by decide)),
   (synthesize_guard_noop
      ⟨none, none, "1:1", none, Status.idle, "", 100, ImageSize.k1⟩ (.error "e")
      ⟨none, some "d", none, Status.idle, "", ImageSize.k1, 80, "1:1", false, false⟩
      "key" (.error "e")).2.1 rfl,
   (synthesize_guard_noop
      ⟨none, none, "1:1", none, Status.idle, "", 100, ImageSize.k1⟩ (.error "e")
      ⟨none, some "d", none, Status.idle, "", ImageSize.k1, 80, "1:1", false, false⟩
      "key" (.error "e")).2.2.1 (Or.inr (Or.inr rfl))⟩

/-- Witness for C1 at concrete dimensions, including the boundary ratio
1200 x 800 = 1.5 exactly, which falls through to the 4:3 rule. -/
theorem aspect_ratio_classification_witness :
    calculateAspectRatio 1600 900 = "16:9" ∧
    calculateAspectRatio 1200 800 = "4:3" ∧
    calculateAspectRatio 500 1000 = "9:16" ∧
    calculateAspectRatio 700 1000 = "3:4" ∧
    calculateAspectRatio 1000 1000 = "1:1" :=
  ⟨(aspect_ratio_classification 1600 900 (by decide) (by decide)).2.1.mpr (by norm_num),
   (aspect_ratio_classification 1200 800 (by decide) (by decide)).2.2.1.mpr (by norm_num),
   (aspect_ratio_classification 500 1000 (by decide) (by decide)).2.2.2.1.mpr (by norm_num),
   (aspect_ratio_classification 700 1000 (by decide) (by decide)).2.2.2.2.1.mpr (by norm_num),
   (aspect_ratio_classification 1000 1000 (by decide) (by decide)).2.2.2.2.2.mpr (by norm_num)⟩

/-- C2 counterexample: in the App.tsx variant, uploading a new reference
image does not clear the stored descriptor; when the triggered audit fails,
the stale descriptor OLD-DNA from the earlier reference image is still
stored in the returned-to-idle state, from which a synthesis request would
embed it. -/
theorem ref_upload_invalidation_cex :
    (AppTsx.handleFileUploadRef
      ⟨none, none, "1:1", none, Status.idle, "OLD-DNA", 100, ImageSize.k1⟩
      "data:image/jpeg;base64,NEW" (.error "network error")).state.dnaStream = "OLD-DNA" ∧
    (AppTsx.handleFileUploadRef
      ⟨none, none, "1:1", none, Status.idle, "OLD-DNA", 100, ImageSize.k1⟩
      "data:image/jpeg;base64,NEW" (.error "network error")).state.status = Status.idle ∧
    "OLD-DNA" ≠ "" :=
  ⟨rfl, rfl, by decide⟩

/-- C2 amended: in the part_000 variant, uploading a new reference image
clears the style descriptor immediately (and stores the new image); in the
App.tsx variant the upload triggers an audit whose success replaces the
descriptor with the freshly extracted text, but a failed audit leaves the
previous descriptor in place. -/
theorem ref_upload_invalidation :
    (∀ (t : Part000.P0State) (data : String),
      (Part000.handleFileUploadRef t data).styleDesc = "" ∧
      (Part000.handleFileUploadRef t data).refImage = some data) ∧
    (∀ (s : AppTsx.AppState) (data : String) (txt : Option String),
      (AppTsx.handleFileUploadRef s data (.ok txt)).state.dnaStream = txt.getD "" ∧
      (AppTsx.handleFileUploadRef s data (.ok txt)).state.refImage = some data) ∧
    (∀ (s : AppTsx.AppState) (data e : String),
      (AppTsx.handleFileUploadRef s data (.error e)).state.dnaStream = s.dnaStream) :=
  ⟨fun _ _ => ⟨rfl, rfl⟩, fun _ _ _ => ⟨rfl, rfl⟩, fun _ _ _ => rfl⟩

/-- C4 counterexample: in the App.tsx variant two synthesis invocations
that differ only in the fidelity value (0 versus 100) issue identical
requests, so the strength percentage is not embedded into the instruction
text there. -/
theorem strength_embedded_cex :
    (AppTsx.executeSynthesis
      ⟨none, some sampleEncoded, "1:1", none, Status.idle, "DESC", 0, ImageSize.k1⟩
      (.error "e")).request =
    (AppTsx.executeSynthesis
      ⟨none, some sampleEncoded, "1:1", none, Status.idle, "DESC", 100, ImageSize.k1⟩
      (.error "e")).request ∧
    (0 : ℕ) ≠ 100 :=
  ⟨rfl, by decide⟩

/-- C4 amended: in the part_000 variant every issued synthesis request
embeds the caller-chosen strength percentage into the composed instruction
text, and for strengths in the 0-100 range distinct values yield distinct
instructions (all else equal); in the App.tsx variant the request is
independent of the fidelity value. -/
theorem strength_embedded (t : Part000.P0State) (key : String)
    (o : Except String SynthResponse) (lineart : String)
    (hl : t.lineartImage = some lineart) (hd : t.styleDesc ≠ "") (hk : key ≠ "") :
    (∃ req, (Part000.renderLayout t key o).request = some req ∧
      req.prompt = Part000.synthPrompt t.styleDesc t.styleStrength) ∧
    (∀ (d : String) (a b : ℕ), a ≤ 100 → b ≤ 100 → a ≠ b →
      Part000.synthPrompt d a ≠ Part000.synthPrompt d b) ∧
    (∀ (s : AppTsx.AppState) (o' : Except String SynthResponse) (n : ℕ),
      (AppTsx.executeSynthesis { s with fidelity := n } o').request =
        (AppTsx.executeSynthesis s o').request) := by
  refine ⟨?_, ?_, ?_⟩
  · refine ⟨{ model := "gemini-3-pro-image-preview", image := payloadOf lineart,
              prompt := Part000.synthPrompt t.styleDesc t.styleStrength,
              aspectRatio := t.aspectRatio, imageSize := t.selectedSize }, ?_, rfl⟩
    simp only [Part000.renderLayout, hl]
    rw [if_neg hd, if_neg hk]
    rcases o with e | resp
    · rfl
    · rcases hc : resp.candidates.head? with _ | c
      · simp [hc]
      · rcases hf : c.parts.find? (fun p => p.inlineData.isSome) with _ | p
        · simp [hc, hf]
        · rcases hpi : p.inlineData with _ | d <;> simp [hc, hf, hpi]
  · intro d a b ha hb hne heq
    apply hne
    refine reprInjBelow a (by omega) b (by omega) ?_
    have h2 := congrArg String.data heq
    simp only [Part000.synthPrompt, String.data_append] at h2
    have h3 := List.append_cancel_right h2
    have h4 := List.append_cancel_left h3
    exact String.ext h4
  · intro s o' n
    cases hl' : s.lineartImage with
    | none => simp [AppTsx.executeSynthesis, hl', StepResult.noop]
    | some la =>
        rcases o' with e | resp
        · simp [AppTsx.executeSynthesis, hl']
        · simp only [AppTsx.executeSynthesis, hl']
          rcases hfp : firstInlinePart resp with _ | p
          · simp [hfp]
          · rcases hpi : p.inlineData with _ | d <;> simp [hfp, hpi]

/-- C5: on a synthesis response the controller selects the first part of the
first candidate that carries an inline image payload and discards all other
parts; a response with no inline-image part returns the session to idle
with no render result set and is surfaced distinctly from a transport
error: it produces no alert and no error log, while a transport failure
always produces an error message. Stated for App.tsx and, under its
guards, for the part_000 variant. -/
theorem response_inline_selection (s : AppTsx.AppState) (lineart : Encoded)
    (hl : s.lineartImage = some lineart) :
    (∀ (resp : SynthResponse) (c : Candidate) (pre post : List Part) (p : Part) (d : String),
      resp.candidates.head? = some c →
      c.parts = pre ++ p :: post →
      (∀ q ∈ pre, q.inlineData = none) →
      p.inlineData = some d →
      (AppTsx.executeSynthesis s (.ok resp)).state.resultImage =
        some ("data:image/png;base64," ++ d) ∧
      (AppTsx.executeSynthesis s (.ok resp)).state.status = Status.idle) ∧
    (∀ resp : SynthResponse,
      (∀ c ∈ resp.candidates, ∀ q ∈ c.parts, q.inlineData = none) →
      (AppTsx.executeSynthesis s (.ok resp)).state.resultImage = s.resultImage ∧
      (AppTsx.executeSynthesis s (.ok resp)).state.status = Status.idle ∧
      (AppTsx.executeSynthesis s (.ok resp)).alertMsg = none ∧
      (AppTsx.executeSynthesis s (.ok resp)).consoleMsg = none) ∧
    (∀ e : String,
      (AppTsx.executeSynthesis s (.error e)).consoleMsg = some ("Synthesis Error: " ++ e)) ∧
    (∀ (t : Part000.P0State) (key lineartD : String) (resp : SynthResponse) (c : Candidate),
      t.lineartImage = some lineartD → t.styleDesc ≠ "" → key ≠ "" →
      resp.candidates.head? = some c →
      ((∀ (pre post : List Part) (p : Part) (d : String),
        c.parts = pre ++ p :: post →
        (∀ q ∈ pre, q.inlineData = none) →
        p.inlineData = some d →
        (Part000.renderLayout t key (.ok resp)).state.resultImage =
          some ("data:image/png;base64," ++ d)) ∧
      ((∀ q ∈ c.parts, q.inlineData = none) →
        (Part000.renderLayout t key (.ok resp)).state.resultImage = t.resultImage ∧
        (Part000.renderLayout t key (.ok resp)).state.status = Status.idle ∧
        (Part000.renderLayout t key (.ok resp)).alertMsg = none) ∧
      (∀ e : String, ∃ msg,
        (Part000.renderLayout t key (.error e)).alertMsg = some msg))) := by
  refine ⟨?_, ?_, ?_, ?_⟩
  · intro resp c pre post p d hc hparts hpre hpd
    have hfp : firstInlinePart resp = some p := by
      unfold firstInlinePart
      rw [hc]
      show c.parts.find? (fun q => q.inlineData.isSome) = some p
      rw [hparts]
      exact find?_first_run _ pre p post (fun q hq => by simp [hpre q hq]) (by simp [hpd])
    constructor
    · simp only [AppTsx.executeSynthesis, hl, hfp, hpd]
    · simp only [AppTsx.executeSynthesis, hl, hfp, hpd]
  · intro resp hall
    have hfp : firstInlinePart resp = none := by
      rcases resp with ⟨cands⟩
      cases cands with
      | nil => rfl
      | cons c0 rest =>
          show c0.parts.find? (fun q => q.inlineData.isSome) = none
          rw [List.find?_eq_none]
          intro q hq
          simp [hall c0 (by simp) q hq]
    refine ⟨?_, ?_, ?_, ?_⟩ <;> simp only [AppTsx.executeSynthesis, hl, hfp]
  · intro e
    simp only [AppTsx.executeSynthesis, hl]
  · intro t key lineartD resp c htl hd hk hc
    refine ⟨?_, ?_, ?_⟩
    · intro pre post p d hparts hpre hpd
      have hfind : c.parts.find? (fun q => q.inlineData.isSome) = some p := by
        rw [hparts]
        exact find?_first_run _ pre p post (fun q hq => by simp [hpre q hq]) (by simp [hpd])
      simp only [Part000.renderLayout, htl]
      rw [if_neg hd, if_neg hk]
      simp only [hc, hfind, hpd]
    · intro hall
      have hfind : c.parts.find? (fun q => q.inlineData.isSome) = none := by
        rw [List.find?_eq_none]
        intro q hq
        simp [hall q hq]
      refine ⟨?_, ?_, ?_⟩ <;>
        (simp only [Part000.renderLayout, htl]; rw [if_neg hd, if_neg hk];
         simp only [hc, hfind])
    · intro e
      simp only [Part000.renderLayout, htl]
      rw [if_neg hd, if_neg hk]
      exact ⟨_, rfl⟩

/-- Witness for C5: a response whose first candidate holds a text part, then
an inline image, then another text part yields exactly the inline payload;
a text-only response leaves the result absent with no alert and no log. -/
theorem response_inline_selection_witness :
    (AppTsx.executeSynthesis
      ⟨none, some sampleEncoded, "1:1", none, Status.idle, "D", 100, ImageSize.k1⟩
      (.ok ⟨[⟨[⟨none, some "safety"⟩, ⟨some "IMG", none⟩, ⟨none, some "extra"⟩]⟩]⟩)).state.resultImage =
      some ("data:image/png;base64," ++ "IMG") ∧
    (AppTsx.executeSynthesis
      ⟨none, some sampleEncoded, "1:1", none, Status.idle, "D", 100, ImageSize.k1⟩
      (.ok ⟨[⟨[⟨none, some "just text"⟩]⟩]⟩)).state.resultImage = none ∧
    (AppTsx.executeSynthesis
      ⟨none, some sampleEncoded, "1:1", none, Status.idle, "D", 100, ImageSize.k1⟩
      (.ok ⟨[⟨[⟨none, some "just text"⟩]⟩]⟩)).alertMsg = none :=
  ⟨((response_inline_selection _ sampleEncoded rfl).1
      ⟨[⟨[⟨none, some "safety"⟩, ⟨some "IMG", none⟩, ⟨none, some "extra"⟩]⟩]⟩
      ⟨[⟨none, some "safety"⟩, ⟨some "IMG", none⟩, ⟨none, some "extra"⟩]⟩
      [⟨none, some "safety"⟩] [⟨none, some "extra"⟩] ⟨some "IMG", none⟩ "IMG"
      rfl rfl (by simp) rfl).1,
   (by
      have h := (response_inline_selection
        ⟨none, some sampleEncoded, "1:1", none, Status.idle, "D", 100, ImageSize.k1⟩
        sampleEncoded rfl).2.1 ⟨[⟨[⟨none, some "just text"⟩]⟩]⟩ (by simp)
      exact h.1),
   (by
      have h := (response_inline_selection
        ⟨none, some sampleEncoded, "1:1", none, Status.idle, "D", 100, ImageSize.k1⟩
        sampleEncoded rfl).2.1 ⟨[⟨[⟨none, some "just text"⟩]⟩]⟩ (by simp)
      exact h.2.2.1)⟩

/-- C6: every failure of an audit or synthesis request returns the session
to idle and leaves the uploaded images, the style descriptor and the render
result unchanged, in both variants (for the operations that guard on their
inputs, under the guards that let the request be issued), so the user can
retry without re-uploading. -/
theorem failure_returns_idle :
    (∀ (s : AppTsx.AppState) (data e : String),
      (AppTsx.auditNeuralDNA s data (.error e)).state.status = Status.idle ∧
      (AppTsx.auditNeuralDNA s data (.error e)).state.refImage = s.refImage ∧
      (AppTsx.auditNeuralDNA s data (.error e)).state.lineartImage = s.lineartImage ∧
      (AppTsx.auditNeuralDNA s data (.error e)).state.dnaStream = s.dnaStream ∧
      (AppTsx.auditNeuralDNA s data (.error e)).state.resultImage = s.resultImage) ∧
    (∀ (s : AppTsx.AppState) (e : String) (lineart : Encoded),
      s.lineartImage = some lineart →
      (AppTsx.executeSynthesis s (.error e)).state.status = Status.idle ∧
      (AppTsx.executeSynthesis s (.error e)).state.refImage = s.refImage ∧
      (AppTsx.executeSynthesis s (.error e)).state.lineartImage = s.lineartImage ∧
      (AppTsx.executeSynthesis s (.error e)).state.dnaStream = s.dnaStream ∧
      (AppTsx.executeSynthesis s (.error e)).state.resultImage = s.resultImage) ∧
    (∀ (t : Part000.P0State) (key e refData : String),
      t.refImage = some refData → key ≠ "" →
      (Part000.analyzeStyle t key (.error e)).state.status = Status.idle ∧
      (Part000.analyzeStyle t key (.error e)).state.refImage = t.refImage ∧
      (Part000.analyzeStyle t key (.error e)).state.lineartImage = t.lineartImage ∧
      (Part000.analyzeStyle t key (.error e)).state.styleDesc = t.styleDesc ∧
      (Part000.analyzeStyle t key (.error e)).state.resultImage = t.resultImage) ∧
    (∀ (t : Part000.P0State) (key e lineartD : String),
      t.lineartImage = some lineartD → t.styleDesc ≠ "" → key ≠ "" →
      (Part000.renderLayout t key (.error e)).state.status = Status.idle ∧
      (Part000.renderLayout t key (.error e)).state.refImage = t.refImage ∧
      (Part000.renderLayout t key (.error e)).state.lineartImage = t.lineartImage ∧
      (Part000.renderLayout t key (.error e)).state.styleDesc = t.styleDesc ∧
      (Part000.renderLayout t key (.error e)).state.resultImage = t.resultImage) := by
  refine ⟨?_, ?_, ?_, ?_⟩
  · intro s data e
    exact ⟨rfl, rfl, rfl, rfl, rfl⟩
  · intro s e lineart hl
    refine ⟨?_, ?_, ?_, ?_, ?_⟩ <;> simp [AppTsx.executeSynthesis, hl]
  · intro t key e refData href hk
    refine ⟨?_, ?_, ?_, ?_, ?_⟩ <;> simp [Part000.analyzeStyle, href, hk, apply_ite]
  · intro t key e lineartD htl hd hk
    refine ⟨?_, ?_, ?_, ?_, ?_⟩ <;> simp [Part000.renderLayout, htl, hd, hk]

/-- Witness for C6: a concrete failed synthesis in each variant returns to
idle and keeps the stored result and descriptor. -/
theorem failure_returns_idle_witness :
    (AppTsx.executeSynthesis
      ⟨some "ref", some sampleEncoded, "1:1", some "R", Status.idle, "DNA", 100, ImageSize.k1⟩
      (.error "boom")).state.status = Status.idle ∧
    (AppTsx.executeSynthesis
      ⟨some "ref", some sampleEncoded, "1:1", some "R", Status.idle, "DNA", 100, ImageSize.k1⟩
      (.error "boom")).state.dnaStream = "DNA" ∧
    (Part000.renderLayout
      ⟨some "ref", some "la", some "R", Status.idle, "DESC", ImageSize.k1, 80, "1:1", false, true⟩
      "key" (.error "boom")).state.resultImage = some "R" :=
  ⟨((failure_returns_idle).2.1
      ⟨some "ref", some sampleEncoded, "1:1", some "R", Status.idle, "DNA", 100, ImageSize.k1⟩
      "boom" sampleEncoded rfl).1,
   ((failure_returns_idle).2.1
      ⟨some "ref", some sampleEncoded, "1:1", some "R", Status.idle, "DNA", 100, ImageSize.k1⟩
      "boom" sampleEncoded rfl).2.2.2.1,
   (((failure_returns_idle).2.2.2
      ⟨some "ref", some "la", some "R", Status.idle, "DESC", ImageSize.k1, 80, "1:1", false, true⟩
      "key" "boom" "la" rfl (by decide) (by decide)).2.2.2.2)⟩

/-- Witness for C4 amended: a concrete strict-variant state issues a request
whose instruction embeds the strength, and strengths 30 and 31 yield
distinct instructions. -/
theorem strength_embedded_witness :
    (∃ req, (Part000.renderLayout
        ⟨none, some "data:image/png;base64,AAA", none, Status.idle, "DESC",
          ImageSize.k1, 30, "1:1", false, true⟩ "key" (.error "e")).request = some req ∧
      req.prompt = Part000.synthPrompt "DESC" 30) ∧
    Part000.synthPrompt "DESC" 30 ≠ Part000.synthPrompt "DESC" 31 := by
  have h := strength_embedded
    ⟨none, some "data:image/png;base64,AAA", none, Status.idle, "DESC",
      ImageSize.k1, 30, "1:1", false, true⟩ "key" (.error "e")
    "data:image/png;base64,AAA" rfl (by decide) (by decide)
  exact ⟨h.1, h.2.1 "DESC" 30 31 (by decide) (by decide) (by decide)⟩

/-- C10: a failed or empty synthesis leaves a previously stored render
result unchanged, reference uploads and audits never touch it, a successful
synthesis only replaces it with a new image (never removes it), and the
explicit discard action clears it: among the modelled operations only the
line-art upload and the discard remove an existing result. -/
theorem result_frame_conditions :
    (∀ (s : AppTsx.AppState) (data : String) (o : Except String (Option String)),
      (AppTsx.handleFileUploadRef s data o).state.resultImage = s.resultImage) ∧
    (∀ (s : AppTsx.AppState) (data : String) (o : Except String (Option String)),
      (AppTsx.auditNeuralDNA s data o).state.resultImage = s.resultImage) ∧
    (∀ (s : AppTsx.AppState) (e : String),
      (AppTsx.executeSynthesis s (.error e)).state.resultImage = s.resultImage) ∧
    (∀ (s : AppTsx.AppState) (resp : SynthResponse),
      firstInlinePart resp = none →
      (AppTsx.executeSynthesis s (.ok resp)).state.resultImage = s.resultImage) ∧
    (∀ (s : AppTsx.AppState) (o : Except String SynthResponse),
      (AppTsx.executeSynthesis s o).state.resultImage = none → s.resultImage = none) ∧
    (∀ (s : AppTsx.AppState), (AppTsx.discardResult s).resultImage = none) ∧
    (∀ (t : Part000.P0State) (data : String),
      (Part000.handleFileUploadRef t data).resultImage = t.resultImage) ∧
    (∀ (t : Part000.P0State) (key : String) (o : Except String (Option String)),
      (Part000.analyzeStyle t key o).state.resultImage = t.resultImage) ∧
    (∀ (t : Part000.P0State) (key e : String),
      (Part000.renderLayout t key (.error e)).state.resultImage = t.resultImage) ∧
    (∀ (t : Part000.P0State) (key : String) (resp : SynthResponse) (c : Candidate),
      resp.candidates.head? = some c →
      c.parts.find? (fun p => p.inlineData.isSome) = none →
      (Part000.renderLayout t key (.ok resp)).state.resultImage = t.resultImage) ∧
    (∀ (t : Part000.P0State) (key : String) (o : Except String SynthResponse),
      (Part000.renderLayout t key o).state.resultImage = none → t.resultImage = none) := by
  refine ⟨?_, ?_, ?_, ?_, ?_, ?_, ?_, ?_, ?_, ?_, ?_⟩
  · intro s data o
    cases o <;> rfl
  · intro s data o
    cases o <;> rfl
  · intro s e
    cases hl : s.lineartImage <;> simp [AppTsx.executeSynthesis, hl, StepResult.noop]
  · intro s resp hfp
    cases hl : s.lineartImage <;>
      simp [AppTsx.executeSynthesis, hl, hfp, StepResult.noop]
  · intro s o h
    cases hl : s.lineartImage with
    | none => simpa [AppTsx.executeSynthesis, hl, StepResult.noop] using h
    | some la =>
        rcases o with e | resp
        · simpa [AppTsx.executeSynthesis, hl] using h
        · rcases hfp : firstInlinePart resp with _ | p
          · simpa [AppTsx.executeSynthesis, hl, hfp] using h
          · rcases hpi : p.inlineData with _ | d
            · simpa [AppTsx.executeSynthesis, hl, hfp, hpi] using h
            · simp [AppTsx.executeSynthesis, hl, hfp, hpi] at h
  · intro s
    rfl
  · intro t data
    rfl
  · intro t key o
    cases href : t.refImage with
    | none => simp [Part000.analyzeStyle, href, StepResult.noop]
    | some r =>
        by_cases hk : key = ""
        · simp [Part000.analyzeStyle, href, hk]
        · rcases o with e | txt
          · simp [Part000.analyzeStyle, href, hk, apply_ite]
          · simp [Part000.analyzeStyle, href, hk]
  · intro t key e
    cases htl : t.lineartImage with
    | none => simp [Part000.renderLayout, htl, StepResult.noop]
    | some la =>
        by_cases hd : t.styleDesc = ""
        · simp [Part000.renderLayout, htl, hd, StepResult.noop]
        · by_cases hk : key = ""
          · simp [Part000.renderLayout, htl, hd, hk]
          · simp [Part000.renderLayout, htl, hd, hk]
  · intro t key resp c hc hfind
    cases htl : t.lineartImage with
    | none => simp [Part000.renderLayout, htl, StepResult.noop]
    | some la =>
        by_cases hd : t.styleDesc = ""
        · simp [Part000.renderLayout, htl, hd, StepResult.noop]
        · by_cases hk : key = ""
          · simp [Part000.renderLayout, htl, hd, hk]
          · simp [Part000.renderLayout, htl, hd, hk, hc, hfind]
  · intro t key o h
    cases htl : t.lineartImage with
    | none => simpa [Part000.renderLayout, htl, StepResult.noop] using h
    | some la =>
        by_cases hd : t.styleDesc = ""
        · simpa [Part000.renderLayout, htl, hd, StepResult.noop] using h
        · by_cases hk : key = ""
          · simpa [Part000.renderLayout, htl, hd, hk] using h
          · rcases o with e | resp
            · simpa [Part000.renderLayout, htl, hd, hk] using h
            · rcases hc : resp.candidates.head? with _ | c
              · simpa [Part000.renderLayout, htl, hd, hk, hc] using h
              · rcases hfind : c.parts.find? (fun p => p.inlineData.isSome) with _ | p
                · simpa [Part000.renderLayout, htl, hd, hk, hc, hfind] using h
                · rcases hpi : p.inlineData with _ | d
                  · simpa [Part000.renderLayout, htl, hd, hk, hc, hfind, hpi] using h
                  · simp [Part000.renderLayout, htl, hd, hk, hc, hfind, hpi] at h

/-- Witness for C10: a failed synthesis and a text-only synthesis response
both leave a concretely stored result R in place. -/
theorem result_frame_conditions_witness :
    (AppTsx.executeSynthesis
      ⟨none, some sampleEncoded, "1:1", some "R", Status.idle, "D", 100, ImageSize.k1⟩
      (.error "boom")).state.resultImage = some "R" ∧
    (AppTsx.executeSynthesis
      ⟨none, some sampleEncoded, "1:1", some "R", Status.idle, "D", 100, ImageSize.k1⟩
      (.ok ⟨[⟨[⟨none, some "text only"⟩]⟩]⟩)).state.resultImage = some "R" :=
  ⟨result_frame_conditions.2.2.1
    ⟨none, some sampleEncoded, "1:1", some "R", Status.idle, "D", 100, ImageSize.k1⟩ "boom",
   result_frame_conditions.2.2.2.1
    ⟨none, some sampleEncoded, "1:1", some "R", Status.idle, "D", 100, ImageSize.k1⟩
    ⟨[⟨[⟨none, some "text only"⟩]⟩]⟩ rfl⟩

/-- C8 counterexample: in the part_000 variant a line-art upload whose
decode fails (decoded = none) does not leave prior state untouched: the
previously stored render result R is cleared, the undecodable bytes are
stored as the line-art, and a subsequent synthesis proceeds to issue a
model request carrying them. -/
theorem decode_failure_cex :
    (Part000.handleFileUploadLineart
      ⟨some "ref", some "old-la", some "R", Status.idle, "DESC", ImageSize.k1, 80, "4:3",
        false, true⟩ "corrupt" none).resultImage = none ∧
    (some "R" : Option String) ≠ none ∧
    (Part000.handleFileUploadLineart
      ⟨some "ref", some "old-la", some "R", Status.idle, "DESC", ImageSize.k1, 80, "4:3",
        false, true⟩ "corrupt" none).lineartImage = some "corrupt" ∧
    (Part000.renderLayout
      (Part000.handleFileUploadLineart
        ⟨some "ref", some "old-la", some "R", Status.idle, "DESC", ImageSize.k1, 80, "4:3",
          false, true⟩ "corrupt" none)
      "key" (.error "e")).request.isSome = true :=
  ⟨rfl, by decide, rfl, rfl⟩

/-- C8 amended: when decoding fails no default image is substituted and no
request is issued by the upload itself, but the failure is silent rather
than explicit: in App.tsx the onload callback never fires, so the upload
leaves the state exactly unchanged; in part_000 the raw undecoded data URI
is stored as the line-art and the render result is cleared before decoding
is attempted, while the ratio bucket and all other fields keep their
previous values, and a later synthesis can proceed with the undecoded
bytes. -/
theorem decode_failure_behavior :
    (∀ s : AppTsx.AppState, AppTsx.handleFileUploadLineart s none = s) ∧
    (∀ (t : Part000.P0State) (data : String),
      (Part000.handleFileUploadLineart t data none).lineartImage = some data ∧
      (Part000.handleFileUploadLineart t data none).resultImage = none ∧
      (Part000.handleFileUploadLineart t data none).aspectRatio = t.aspectRatio ∧
      (Part000.handleFileUploadLineart t data none).refImage = t.refImage ∧
      (Part000.handleFileUploadLineart t data none).styleDesc = t.styleDesc ∧
      (Part000.handleFileUploadLineart t data none).status = t.status) :=
  ⟨fun _ => rfl, fun _ _ => ⟨rfl, rfl, rfl, rfl, rfl, rfl⟩⟩

end LayoutColor
